import Mathlib

/-!
Verification of the local media server (netflix.py and app_with_thumbnails.py).

The development shallowly embeds the parts of the two Python sources that the
checked properties are about: the byte-range streaming engine, the catalog
synchronizer (`scan_media`), the thumbnail pipeline (`generate_thumbnail`),
the path sandbox check (`secure_media_path`), and the playback-progress
endpoints.  Pure data is modelled directly; filesystem and database state is
passed explicitly; the external collaborators (ffmpeg, PIL, werkzeug) are
modelled by explicit success flags or are out of scope.

Namespace `Netflix` embeds netflix.py; namespace `AppThumbs` embeds
app_with_thumbnails.py.
-/

set_option linter.unusedVariables false
set_option maxRecDepth 8192

/-- HTTP response skeleton: status code, the headers the properties talk
about, and the body as a list of byte values.  The mimetype, etag and cache
headers set by Flask's send_file are not modelled. -/
structure HttpResponse where
  status : Nat
  headers : List (String × String)
  body : List Nat
deriving DecidableEq, Repr

namespace Netflix

/-- netflix.py: `BYTES_PER_CHUNK = 1024 * 1024`, the chunk size used by the
streaming generator. -/
def BYTES_PER_CHUNK : Nat := 1024 * 1024

/-- Maximal run of ASCII digits at the head of a character list, together
with the rest (the behaviour of a greedy `\d+` / `\d*` at a position). -/
def digitSpan : List Char → List Char × List Char
  | [] => ([], [])
  | c :: cs =>
    if c.isDigit then
      let (d, r) := digitSpan cs
      (c :: d, r)
    else ([], c :: cs)

/-- Digit characters to the number they denote, most significant first. -/
def digitsToNat (ds : List Char) : Nat :=
  ds.foldl (fun n c => n * 10 + (c.toNat - 48)) 0

/-- Try to match the regular expression `bytes=(\d+)-(\d*)` at the head of
the character list, as `re.search` would at one position.  Returns the two
captured groups; an empty second group is `none` (the Python code treats the
empty string as absent). -/
def matchRangeAt : List Char → Option (Nat × Option Nat)
  | 'b' :: 'y' :: 't' :: 'e' :: 's' :: '=' :: rest =>
    let (d1, r1) := digitSpan rest
    if d1 = [] then none
    else
      match r1 with
      | '-' :: r2 =>
        let (d2, _) := digitSpan r2
        some (digitsToNat d1, if d2 = [] then none else some (digitsToNat d2))
      | _ => none
  | _ => none

/-- `re.search(r'bytes=(\d+)-(\d*)', header)`: first position at which the
pattern matches, scanning left to right. -/
def searchRange : List Char → Option (Nat × Option Nat)
  | [] => none
  | c :: cs =>
    match matchRangeAt (c :: cs) with
    | some r => some r
    | none => searchRange cs

/-- Parse a `Range` header value with the regular expression used by
netflix.py's `stream_media`. -/
def parseRange (s : String) : Option (Nat × Option Nat) :=
  searchRange s.data

/-- netflix.py: `end = int(end) if end else file_size - 1`.  The value is a
Python int, so it can be `-1` for an empty file; we keep it as an `Int`. -/
def end_val (size : Nat) (eo : Option Nat) : Int :=
  match eo with
  | some n => (n : Int)
  | none => (size : Int) - 1

/-- The loop body of netflix.py's `generate_chunk`: starting with `remaining`
bytes still requested and the file contents from the current seek position
(`rest`), repeatedly read `min(BYTES_PER_CHUNK, remaining)` bytes, stop when
the file is exhausted (`if not data: break`), and otherwise yield the data
and subtract its length from `remaining`. -/
def generate_chunk_loop (rest : List Nat) (remaining : Nat) : List Nat :=
  if h : remaining = 0 then []
  else
    let chunkSize := min BYTES_PER_CHUNK remaining
    let data := rest.take chunkSize
    if hd : data.length = 0 then []
    else data ++ generate_chunk_loop (rest.drop data.length) (remaining - data.length)
termination_by remaining
decreasing_by
  exact Nat.sub_lt (Nat.pos_of_ne_zero h) (Nat.pos_of_ne_zero hd)

/-- netflix.py's `generate_chunk`: seek to `start` and emit up to `len`
bytes in fixed-size chunks. -/
def generate_chunk (file : List Nat) (start len : Nat) : List Nat :=
  generate_chunk_loop (file.drop start) len

/-- The non-range branch of `stream_media`: Flask `send_file` (status 200,
Content-Length set by send_file) with `Accept-Ranges: bytes` added. -/
def full_response (content : List Nat) : HttpResponse :=
  ⟨200, [("Content-Length", toString content.length), ("Accept-Ranges", "bytes")], content⟩

/-- The single-range branch of netflix.py's `stream_media`, after the header
has matched the regular expression: validate the range (`start >= file_size
or start > end` gives 416 with `Content-Range: bytes */<size>` and no body),
otherwise answer 206 with `Content-Range`, `Content-Length = end-start+1`,
`Accept-Ranges: bytes` and the chunked generator as body. -/
def serve_range (file : List Nat) (start : Nat) (eo : Option Nat) : HttpResponse :=
  if (start : Int) ≥ (file.length : Int) ∨ (start : Int) > end_val file.length eo then
    ⟨416, [("Content-Range", "bytes */" ++ toString file.length)], []⟩
  else
    ⟨206,
      [("Content-Range", "bytes " ++ toString start ++ "-"
          ++ toString (end_val file.length eo) ++ "/" ++ toString file.length),
       ("Content-Length", toString (end_val file.length eo - (start : Int) + 1)),
       ("Accept-Ranges", "bytes")],
      generate_chunk file start (end_val file.length eo - (start : Int) + 1).toNat⟩

/-- `stream_media` on a present, non-empty `Range` header: if the regular
expression matches, serve the range; otherwise fall through to the full
response, exactly as the Python control flow does. -/
def stream_range (file : List Nat) (header : String) : HttpResponse :=
  match parseRange header with
  | some (s, eo) => serve_range file s eo
  | none => full_response file

/-- The state `stream_media` consults: the media table restricted to the
columns it reads (id and stored path), and the filesystem as an association
of existing regular files to their contents.  Paths are taken in the
canonical form `str(path)` stores them in. -/
structure StreamEnv where
  media_db : List (Nat × String)
  fs_files : List (String × List Nat)

/-- netflix.py's `stream_media` route: look the id up in the media table
(404 if absent), check the stored path is a file on disk (404 if not), then
serve, honoring a present non-empty `Range` header.  Note that the stored
path is used as-is: no canonicalization and no check against MEDIA_DIR. -/
def stream_media (env : StreamEnv) (mediaId : Nat) (rangeHeader : Option String) :
    HttpResponse :=
  match env.media_db.find? (fun pr => pr.1 == mediaId) with
  | none => ⟨404, [], []⟩
  | some pr =>
    match env.fs_files.find? (fun fc => fc.1 == pr.2) with
    | none => ⟨404, [], []⟩
    | some fc =>
      if (rangeHeader.getD "") = "" then full_response fc.2
      else stream_range fc.2 (rangeHeader.getD "")

end Netflix

namespace Netflix

/-- netflix.py: `IMAGE_EXT = {".jpg", ".jpeg", ".png", ".webp"}`.  The Python
value is a set whose iteration order is unspecified; the properties checked
here do not depend on the order, so one order is fixed. -/
def IMAGE_EXT : List String := [".jpg", ".jpeg", ".png", ".webp"]

/-- The state `generate_thumbnail` consults, with the external collaborators
(PIL and ffmpeg) modelled by explicit success flags:
`ffmpegAvailable` is the module-level `FFMPEG_AVAILABLE` flag;
`artifactExists` is `thumb_file.exists()` for this media id;
`posterExts` is the set of image extensions for which a sibling poster file
with the media file's base name exists;
`posterResizeOk` is whether the PIL open/resize/save of the poster succeeds;
`decodeOk` is whether the ffmpeg frame extraction succeeds. -/
structure ThumbEnv where
  ffmpegAvailable : Bool
  artifactExists : Bool
  posterExts : List String
  posterResizeOk : Bool
  decodeOk : Bool
deriving DecidableEq, Repr

/-- Outcome of one `generate_thumbnail` call: the returned boolean, how many
times the PIL poster resize ran, how many times the ffmpeg frame extraction
ran, and whether an artifact file was written. -/
structure ThumbResult where
  ret : Bool
  resize_calls : Nat
  decoder_calls : Nat
  wrote_artifact : Bool
deriving DecidableEq, Repr

/-- netflix.py's `generate_thumbnail(media_path, media_id)`:
returns False immediately when `FFMPEG_AVAILABLE` is false (before looking at
anything else); returns True immediately when the artifact file already
exists; otherwise looks for a sibling poster image over `IMAGE_EXT`, resizes
it on success, and on a poster-processing exception or when no poster exists
falls through to a one-frame ffmpeg extraction; an ffmpeg failure yields
False. -/
def generate_thumbnail (env : ThumbEnv) : ThumbResult :=
  if env.ffmpegAvailable = false then ⟨false, 0, 0, false⟩
  else if env.artifactExists then ⟨true, 0, 0, false⟩
  else
    match IMAGE_EXT.find? (fun e => env.posterExts.contains e) with
    | some _ =>
      if env.posterResizeOk then ⟨true, 1, 0, true⟩
      else if env.decodeOk then ⟨true, 1, 1, true⟩
      else ⟨false, 1, 1, false⟩
    | none =>
      if env.decodeOk then ⟨true, 0, 1, true⟩
      else ⟨false, 0, 1, false⟩

/-- The thumbnail state after a `generate_thumbnail` call: the artifact file
exists if it already did or the call wrote it. -/
def thumb_after (env : ThumbEnv) : ThumbEnv :=
  { env with artifactExists := env.artifactExists || (generate_thumbnail env).wrote_artifact }

/-- netflix.py's `get_video_duration`: 0 when `FFMPEG_AVAILABLE` is false;
otherwise the probed container duration, with any probe error yielding 0.
The probe itself is external; `probe = none` covers both a missing duration
and a raised error. -/
def get_video_duration (ffmpegAvailable : Bool) (probe : Option Nat) : Nat :=
  if ffmpegAvailable = false then 0
  else
    match probe with
    | some d => d
    | none => 0

/-- A file under MEDIA_DIR, as its resolved path: the directory segments
relative to MEDIA_DIR, the base name, and the extension (`Path.suffix`,
including the dot).  Segments are nonempty and contain no separator; paths
are taken already resolved (`Path.resolve`), which is how `scan_media`
compares them. -/
structure FsFile where
  dirs : List String
  stem : String
  ext : String
deriving DecidableEq, Repr

/-- The full path of a file relative to MEDIA_DIR, as its list of segments. -/
def fullPath (f : FsFile) : List String := f.dirs ++ [f.stem ++ f.ext]

/-- The filesystem tree under MEDIA_DIR: the list of files `rglob('*')`
enumerates. -/
structure MediaFS where
  files : List FsFile
deriving DecidableEq, Repr

/-- netflix.py: `VIDEO_EXT = {".mp4", ".mkv", ".webm", ".avi"}`. -/
def VIDEO_EXT : List String := [".mp4", ".mkv", ".webm", ".avi"]

/-- ASCII model of Python `str.lower()`, character by character. -/
def pyLower (s : String) : String := String.mk (s.data.map Char.toLower)

/-- The scan's file filter: `f.is_file() and f.suffix.lower() in VIDEO_EXT`. -/
def video_files (fs : MediaFS) : List FsFile :=
  fs.files.filter (fun f => VIDEO_EXT.contains (pyLower f.ext))

/-- netflix.py's `find_subtitle`: a sibling `.vtt` file with the same base
name, if it exists; the `.srt` branch returns None in the source as well. -/
def find_subtitle (fs : MediaFS) (f : FsFile) : Option FsFile :=
  if fs.files.contains ⟨f.dirs, f.stem, ".vtt"⟩ then some ⟨f.dirs, f.stem, ".vtt"⟩
  else none

/-- ASCII model of Python `str.title()` composed with `replace('.', ' ')`,
as used for `title = f_path.stem.replace('.', ' ').title()`: a letter that
follows a non-letter is uppercased, other letters are lowercased. -/
def title_of (stem : String) : String :=
  let spaced := stem.data.map (fun c => if c = '.' then ' ' else c)
  let step := fun (acc : List Char × Bool) (c : Char) =>
    ((if acc.2 then c.toLower else c.toUpper) :: acc.1, c.isAlpha)
  String.mk ((spaced.foldl step ([], false)).1.reverse)

/-- netflix.py's category inference for a new file whose parent directory is
`dirs` relative to MEDIA_DIR: `category = f_path_res.parent.relative_to(MEDIA_DIR)`
prints as `'.'` exactly when `dirs` is empty, giving the sentinel; otherwise
`str(category).split(os.sep)[0]` is the first segment. -/
def scan_category (dirs : List String) : String :=
  match dirs with
  | [] => "Uncategorized"
  | d :: _ => d

/-- A row of the `media` table, restricted to the columns `scan_media`
reads or writes.  `has_subtitle` and `has_thumbnail` have SQL default 0
(false). -/
structure MediaRow where
  id : Nat
  title : String
  path : List String
  category : String
  duration : Nat
  has_thumbnail : Bool
  has_subtitle : Bool
deriving DecidableEq, Repr

/-- Mutable state threaded through the per-file loop of `scan_media`:
the `media` table, the autoincrement counter (SQLite `lastrowid` handling:
fresh ids are taken from and bump this counter), and the two counters the
run reports. -/
structure ScanState where
  db : List MediaRow
  nextId : Nat
  newCount : Nat
  updatedCount : Nat
deriving DecidableEq, Repr

/-- The first half of the loop body of netflix.py's `scan_media`, for one
video file `f`: `if f_path_res not in existing_paths:` insert the row.
`oldPaths` is the `existing_paths` dict loaded before the loop (resolved
path to id), which the loop never updates.  `durOf` and `thumbOk` are the
external probe and thumbnail outcomes (`get_video_duration` /
`generate_thumbnail`).  The INSERT leaves `has_subtitle` at its SQL default
0 and the follow-up `UPDATE media SET has_thumbnail` folds into the stored
`thumbOk f`; the fresh row takes the autoincrement id (`lastrowid`).
Ids in the real table start at 1, so `if media_id:` in the second half is
modelled as presence in the dict. -/
def scan_insert (durOf : FsFile → Nat) (thumbOk : FsFile → Bool)
    (oldPaths : List (List String × Nat)) (st : ScanState) (f : FsFile) : ScanState :=
  if (oldPaths.find? (fun pr => pr.1 == fullPath f)).isNone then
    { st with
      db := st.db ++ [{ id := st.nextId, title := title_of f.stem, path := fullPath f,
                        category := scan_category f.dirs, duration := durOf f,
                        has_thumbnail := thumbOk f, has_subtitle := false }],
      nextId := st.nextId + 1,
      newCount := st.newCount + 1 }
  else st

/-- The second half of the loop body: `media_id = existing_paths.get(...)`
(the pre-loop dict, so a row just inserted by `scan_insert` is not found and
its subtitle check is skipped this run); when found, re-read the row's
`has_subtitle` by id and persist the recomputed flag only when it changed,
bumping `updated_media_count`. -/
def scan_subtitle (fs : MediaFS) (oldPaths : List (List String × Nat))
    (st : ScanState) (f : FsFile) : ScanState :=
  match oldPaths.find? (fun pr => pr.1 == fullPath f) with
  | none => st
  | some pr =>
    match st.db.find? (fun r => r.id == pr.2) with
    | none => st
    | some row =>
      if row.has_subtitle ≠ (find_subtitle fs f).isSome then
        { st with
          db := st.db.map (fun r =>
            if r.id == pr.2 then { r with has_subtitle := (find_subtitle fs f).isSome } else r),
          updatedCount := st.updatedCount + 1 }
      else st

def scan_step (fs : MediaFS) (durOf : FsFile → Nat) (thumbOk : FsFile → Bool)
    (oldPaths : List (List String × Nat)) (st : ScanState) (f : FsFile) : ScanState :=
  scan_subtitle fs oldPaths (scan_insert durOf thumbOk oldPaths st f) f

/-- What one run of `scan_media` produces: the final table, the advanced
autoincrement counter, and the three counts the run reports. -/
structure ScanResult where
  db : List MediaRow
  nextId : Nat
  newCount : Nat
  updatedCount : Nat
  removedCount : Nat
deriving DecidableEq, Repr

/-- netflix.py's `scan_media`: enumerate the video files, load the path
lookup from the current table, run the add/subtitle loop over every video
file, then delete every row whose path no longer occurs among the scanned
files (`deleted_media_ids` collects one id per stale dict entry). -/
def scan_media (fs : MediaFS) (durOf : FsFile → Nat) (thumbOk : FsFile → Bool)
    (db0 : List MediaRow) (nextId0 : Nat) : ScanResult :=
  let vfiles := video_files fs
  let oldPaths := db0.map (fun r => (r.path, r.id))
  let st := vfiles.foldl (scan_step fs durOf thumbOk oldPaths) ⟨db0, nextId0, 0, 0⟩
  let present := vfiles.map fullPath
  let removedIds := (oldPaths.filter (fun pr => !(present.contains pr.1))).map (fun pr => pr.2)
  { db := st.db.filter (fun r => !(removedIds.contains r.id)),
    nextId := st.nextId,
    newCount := st.newCount,
    updatedCount := st.updatedCount,
    removedCount := removedIds.length }

/-- A row of the `watch_progress` table (columns the endpoint touches). -/
structure ProgressRow where
  id : Nat
  profile_id : Nat
  media_id : Nat
  current_time : Int
  last_watched : Nat
deriving DecidableEq, Repr

/-- The JSON outcome of `api_watch_progress`: HTTP status, the `success`
flag, and the echoed `current_time` when present. -/
structure ApiResp where
  status : Nat
  success : Bool
  returned_time : Option Int
deriving DecidableEq, Repr

/-- netflix.py's `api_watch_progress` with the request body already parsed
(`media_id`, `current_time = int(...)`) and an authenticated profile:
a negative time is rejected with 400 before any database access; otherwise
the row for (profile, media) is updated in place (by its row id) when it
exists and inserted otherwise, and the stored time is echoed back.
`now` stands for `datetime.now().isoformat()`. -/
def api_watch_progress (db : List ProgressRow) (nextId : Nat)
    (profileId mediaId : Nat) (t : Int) (now : Nat) :
    ApiResp × List ProgressRow × Nat :=
  if t < 0 then (⟨400, false, none⟩, db, nextId)
  else
    match db.find? (fun r => r.profile_id == profileId && r.media_id == mediaId) with
    | some row =>
      (⟨200, true, some t⟩,
       db.map (fun r => if r.id == row.id then { r with current_time := t, last_watched := now } else r),
       nextId)
    | none =>
      (⟨200, true, some t⟩, db ++ [⟨nextId, profileId, mediaId, t, now⟩], nextId + 1)

end Netflix

/-- Python `str.startswith`: `startswith s p` is `s.startswith(p)`, that is,
whether `p` is a character prefix of `s`. -/
def startswith (s p : String) : Bool := p.data.isPrefixOf s.data

namespace AppThumbs

/-- The state app_with_thumbnails.py's `stream`/`secure_media_path` consult:
the `media` table (id and stored `filepath`), path resolution
(`Path.resolve`, with `none` modelling a raised exception), the set of
existing resolved paths, and file contents for serving. -/
structure StreamEnv where
  media_db : List (Nat × String)
  resolve : String → Option String
  fs_exists : List String
  contentOf : String → List Nat

/-- app_with_thumbnails.py's `secure_media_path`: resolve the stored path
(404 on a resolution error), 403 when the resolved path does not start with
`str(MEDIA_DIR)`, 404 when it does not exist, otherwise the resolved path. -/
def secure_media_path (env : StreamEnv) (mediaDir : String) (fp : String) :
    Except Nat String :=
  match env.resolve fp with
  | none => Except.error 404
  | some resolved =>
    if !(startswith resolved mediaDir) then Except.error 403
    else if !(env.fs_exists.contains resolved) then Except.error 404
    else Except.ok resolved

/-- app_with_thumbnails.py's `stream` route: look the id up (404 if absent),
validate the path with `secure_media_path`, then delegate to Flask's
`send_file(path, conditional=True)`; the delegated byte-range handling lives
in werkzeug and is modelled as a plain 200 whole-file response here. -/
def stream (env : StreamEnv) (mediaDir : String) (mediaId : Nat) : HttpResponse :=
  match env.media_db.find? (fun pr => pr.1 == mediaId) with
  | none => ⟨404, [], []⟩
  | some pr =>
    match secure_media_path env mediaDir pr.2 with
    | Except.error s => ⟨s, [], []⟩
    | Except.ok p => ⟨200, [("Accept-Ranges", "bytes")], env.contentOf p⟩

/-- app_with_thumbnails.py's `generate_thumbnail(video_path, media_id)`:
returns the artifact path (truthy) immediately when `thumb_path.exists()`;
otherwise probes for a timestamp (failure tolerated), extracts one frame and
re-encodes it, returning the path on success and None on any exception.
`decodeOk` bundles the ffmpeg extraction and PIL re-encode succeeding;
`ret` is the truthiness of the returned value. -/
def generate_thumbnail (artifactExists : Bool) (decodeOk : Bool) : Netflix.ThumbResult :=
  if artifactExists then ⟨true, 0, 0, false⟩
  else if decodeOk then ⟨true, 0, 1, true⟩
  else ⟨false, 0, 1, false⟩

/-- app_with_thumbnails.py's category inference:
`str(p.parent.relative_to(MEDIA_DIR).parts[0])`, with any exception (the
IndexError on an empty `parts`) giving 'Uncategorized'. -/
def awt_category (dirs : List String) : String :=
  match dirs with
  | [] => "Uncategorized"
  | d :: _ => d

/-- A row of app_with_thumbnails.py's `watch_history` table. -/
structure HistoryRow where
  id : Nat
  profile_id : Nat
  media_id : Nat
  last_position : Int
  watched_at : Nat
deriving DecidableEq, Repr

/-- app_with_thumbnails.py's `api_progress`: 403 without an authenticated
user and profile; otherwise it unconditionally INSERTs a new `watch_history`
row with the posted position — no negativity check and no update of an
existing row — and answers 200 `{'ok': True}` without echoing the value. -/
def api_progress (db : List HistoryRow) (nextId : Nat) (authed : Bool)
    (profileId mediaId : Nat) (pos : Int) (now : Nat) :
    (Nat × Bool) × List HistoryRow × Nat :=
  if !authed then ((403, false), db, nextId)
  else ((200, true), db ++ [⟨nextId, profileId, mediaId, pos, now⟩], nextId + 1)

end AppThumbs

namespace Netflix

theorem generate_chunk_loop_take (remaining : Nat) :
    ∀ rest : List Nat, generate_chunk_loop rest remaining = rest.take remaining := by
  induction remaining using Nat.strong_induction_on with
  | _ n ih =>
    intro rest
    unfold generate_chunk_loop
    by_cases h : n = 0
    · simp [h]
    · simp only [dif_neg h]
      by_cases hd : (rest.take (min BYTES_PER_CHUNK n)).length = 0
      · have hrest : rest = [] := by
          rcases rest with _ | ⟨a, r⟩
          · rfl
          · exfalso
            simp [List.length_take, BYTES_PER_CHUNK] at hd
            omega
        subst hrest
        simp
      · simp only [dif_neg hd]
        have hlen : (rest.take (min BYTES_PER_CHUNK n)).length
            = min (min BYTES_PER_CHUNK n) rest.length := by
          simp [List.length_take]
        rcases Nat.le_total rest.length (min BYTES_PER_CHUNK n) with hle | hle
        · -- the whole remainder of the file fits in this read
          have hdata : rest.take (min BYTES_PER_CHUNK n) = rest :=
            List.take_of_length_le hle
          rw [hdata]
          rw [List.drop_length]
          have hlt : rest.length ≤ n := le_trans hle (Nat.min_le_right _ _)
          rw [ih (n - rest.length) (by omega) []]
          simp [List.take_of_length_le hlt]
        · -- a full chunk was read
          have hdata : (rest.take (min BYTES_PER_CHUNK n)).length = min BYTES_PER_CHUNK n := by
            rw [hlen]; omega
          rw [hdata]
          rw [ih (n - min BYTES_PER_CHUNK n) (by omega)]
          have hmn : min BYTES_PER_CHUNK n ≤ n := Nat.min_le_right _ _
          calc rest.take (min BYTES_PER_CHUNK n)
                ++ (rest.drop (min BYTES_PER_CHUNK n)).take (n - min BYTES_PER_CHUNK n)
              = rest.take (min BYTES_PER_CHUNK n + (n - min BYTES_PER_CHUNK n)) := by
                rw [List.take_add]
            _ = rest.take n := by congr 1; omega

theorem generate_chunk_take (file : List Nat) (start len : Nat) :
    generate_chunk file start len = (file.drop start).take len :=
  generate_chunk_loop_take len (file.drop start)

end Netflix

theorem toString_intCast (n : Nat) : toString ((n : Int)) = toString n := rfl

namespace Netflix

theorem serve_range_206 (file : List Nat) (s e : Nat)
    (hs : s < file.length) (hse : s ≤ e) :
    serve_range file s (some e) =
      ⟨206,
        [("Content-Range", "bytes " ++ toString s ++ "-" ++ toString e ++ "/"
            ++ toString file.length),
         ("Content-Length", toString (e - s + 1)),
         ("Accept-Ranges", "bytes")],
        (file.drop s).take (e - s + 1)⟩ := by
  have hend : end_val file.length (some e) = ((e : Nat) : Int) := rfl
  have hcond : ¬ ((s : Int) ≥ (file.length : Int) ∨ (s : Int) > ((e : Nat) : Int)) := by
    omega
  have hlen : ((e : Nat) : Int) - (s : Int) + 1 = ((e - s + 1 : Nat) : Int) := by
    omega
  unfold serve_range
  rw [hend, if_neg hcond, hlen, toString_intCast, toString_intCast]
  rw [Int.toNat_natCast, generate_chunk_take]

end Netflix

/-- Claim C1: for a catalog item whose file has exactly 1000 bytes, a request
with `Range: bytes=0-99` gets 206 with `Content-Range: bytes 0-99/1000`,
`Content-Length: 100`, `Accept-Ranges: bytes` and exactly the first 100 bytes
as body; and for any in-bounds single range `bytes=s-e` the body is the bytes
`s..e` and the Content-Length is `e-s+1`. -/
theorem C1_range_request_correctness (file : List Nat) (s e : Nat)
    (h1000 : file.length = 1000) (hse : s ≤ e) (hef : e < file.length) :
    ((Netflix.stream_range file "bytes=0-99").status = 206 ∧
      ("Content-Range", "bytes 0-99/1000") ∈ (Netflix.stream_range file "bytes=0-99").headers ∧
      ("Content-Length", "100") ∈ (Netflix.stream_range file "bytes=0-99").headers ∧
      ("Accept-Ranges", "bytes") ∈ (Netflix.stream_range file "bytes=0-99").headers ∧
      (Netflix.stream_range file "bytes=0-99").body = file.take 100) ∧
    ((Netflix.serve_range file s (some e)).status = 206 ∧
      ("Content-Length", toString (e - s + 1)) ∈ (Netflix.serve_range file s (some e)).headers ∧
      (Netflix.serve_range file s (some e)).body = (file.drop s).take (e - s + 1)) := by
  have hparse : Netflix.parseRange "bytes=0-99" = some (0, some 99) := rfl
  have hsr : Netflix.stream_range file "bytes=0-99" = Netflix.serve_range file 0 (some 99) := by
    simp [Netflix.stream_range, hparse]
  have hA := Netflix.serve_range_206 file 0 99 (by omega) (by omega)
  have hB := Netflix.serve_range_206 file s e (by omega) hse
  rw [h1000] at hA
  have hH : (Netflix.stream_range file "bytes=0-99").headers
      = [("Content-Range", "bytes 0-99/1000"), ("Content-Length", "100"),
         ("Accept-Ranges", "bytes")] := by
    rw [hsr, hA]
    rfl
  constructor
  · refine ⟨by rw [hsr, hA], ?_, ?_, ?_, ?_⟩
    · rw [hH]
      simp
    · rw [hH]
      simp
    · rw [hH]
      simp
    · rw [hsr, hA]
      norm_num [List.drop_zero]
  · rw [hB]
    refine ⟨rfl, ?_, rfl⟩
    simp

/-- Witness for C1 at a concrete 1000-byte file and the range 3-7. -/
theorem C1_witness :
    (List.replicate 1000 (5 : Nat)).length = 1000 ∧ (3 : Nat) ≤ 7 ∧
    7 < (List.replicate 1000 (5 : Nat)).length ∧
    (((Netflix.stream_range (List.replicate 1000 (5 : Nat)) "bytes=0-99").status = 206 ∧
      ("Content-Range", "bytes 0-99/1000")
        ∈ (Netflix.stream_range (List.replicate 1000 (5 : Nat)) "bytes=0-99").headers ∧
      ("Content-Length", "100")
        ∈ (Netflix.stream_range (List.replicate 1000 (5 : Nat)) "bytes=0-99").headers ∧
      ("Accept-Ranges", "bytes")
        ∈ (Netflix.stream_range (List.replicate 1000 (5 : Nat)) "bytes=0-99").headers ∧
      (Netflix.stream_range (List.replicate 1000 (5 : Nat)) "bytes=0-99").body
        = (List.replicate 1000 (5 : Nat)).take 100) ∧
    ((Netflix.serve_range (List.replicate 1000 (5 : Nat)) 3 (some 7)).status = 206 ∧
      ("Content-Length", toString (7 - 3 + 1))
        ∈ (Netflix.serve_range (List.replicate 1000 (5 : Nat)) 3 (some 7)).headers ∧
      (Netflix.serve_range (List.replicate 1000 (5 : Nat)) 3 (some 7)).body
        = ((List.replicate 1000 (5 : Nat)).drop 3).take (7 - 3 + 1))) :=
  ⟨List.length_replicate 1000 5, by norm_num,
   by rw [List.length_replicate]; norm_num,
   C1_range_request_correctness (List.replicate 1000 (5 : Nat)) 3 7
     (List.length_replicate 1000 5) (by norm_num) (by rw [List.length_replicate]; norm_num)⟩

/-- Claim C2: an unsatisfiable parsed range (`start` at or past the file
size, or `start > end`, with a missing `end` defaulting to `size-1`) gets
416 with `Content-Range: bytes */<size>` and an empty body; in particular
`bytes=1000-1005` on a 1000-byte file gets 416 with `Content-Range: bytes */1000`. -/
theorem C2_unsatisfiable_range (file : List Nat) (s : Nat) (eo : Option Nat) (file2 : List Nat)
    (hbad : (s : Int) ≥ (file.length : Int) ∨ (s : Int) > Netflix.end_val file.length eo)
    (h1000 : file2.length = 1000) :
    Netflix.serve_range file s eo =
      ⟨416, [("Content-Range", "bytes */" ++ toString file.length)], []⟩ ∧
    Netflix.stream_range file2 "bytes=1000-1005" =
      ⟨416, [("Content-Range", "bytes */1000")], []⟩ := by
  constructor
  · unfold Netflix.serve_range
    rw [if_pos hbad]
  · have hparse : Netflix.parseRange "bytes=1000-1005" = some (1000, some 1005) := rfl
    simp only [Netflix.stream_range, hparse]
    have hcond : ((1000 : Nat) : Int) ≥ (file2.length : Int) ∨
        ((1000 : Nat) : Int) > Netflix.end_val file2.length (some 1005) := by
      left
      rw [h1000]
    unfold Netflix.serve_range
    rw [if_pos hcond, h1000]
    decide

/-- Witness for C2: the empty range `bytes=0-` on an empty file, and the
concrete 1000-byte boundary case. -/
theorem C2_witness :
    (((0 : Nat) : Int) ≥ (([] : List Nat).length : Int) ∨
      ((0 : Nat) : Int) > Netflix.end_val ([] : List Nat).length none) ∧
    (List.replicate 1000 (5 : Nat)).length = 1000 ∧
    (Netflix.serve_range ([] : List Nat) 0 none =
      ⟨416, [("Content-Range", "bytes */" ++ toString ([] : List Nat).length)], []⟩ ∧
    Netflix.stream_range (List.replicate 1000 (5 : Nat)) "bytes=1000-1005" =
      ⟨416, [("Content-Range", "bytes */1000")], []⟩) :=
  ⟨by left; simp, List.length_replicate 1000 5,
   C2_unsatisfiable_range ([] : List Nat) 0 none (List.replicate 1000 (5 : Nat))
     (by left; simp) (List.length_replicate 1000 5)⟩

/-- Claim C10: when `start` is inside the file but `end` is at or past the
file size, the 206 headers are computed from the unclamped `end`
(Content-Length = end-start+1) while the chunked generator stops at the end
of the file, emitting only `size-start` bytes — strictly fewer than the
declared Content-Length. -/
theorem C10_end_past_eof_mismatch (file : List Nat) (s e : Nat)
    (hs : s < file.length) (he : file.length ≤ e) :
    (Netflix.serve_range file s (some e)).status = 206 ∧
    ("Content-Range", "bytes " ++ toString s ++ "-" ++ toString e ++ "/" ++ toString file.length)
      ∈ (Netflix.serve_range file s (some e)).headers ∧
    ("Content-Length", toString (e - s + 1)) ∈ (Netflix.serve_range file s (some e)).headers ∧
    (Netflix.serve_range file s (some e)).body.length = file.length - s ∧
    (Netflix.serve_range file s (some e)).body.length < e - s + 1 := by
  have h := Netflix.serve_range_206 file s e hs (by omega)
  rw [h]
  refine ⟨rfl, by simp, by simp, ?_, ?_⟩
  · simp only [HttpResponse.body]
    rw [List.length_take, List.length_drop]
    omega
  · simp only [HttpResponse.body]
    rw [List.length_take, List.length_drop]
    omega

/-- Witness for C10: `bytes=3-12` on a 10-byte file. -/
theorem C10_witness :
    (3 : Nat) < (List.replicate 10 (9 : Nat)).length ∧
    (List.replicate 10 (9 : Nat)).length ≤ 12 ∧
    ((Netflix.serve_range (List.replicate 10 (9 : Nat)) 3 (some 12)).status = 206 ∧
    ("Content-Range", "bytes " ++ toString 3 ++ "-" ++ toString 12 ++ "/"
        ++ toString (List.replicate 10 (9 : Nat)).length)
      ∈ (Netflix.serve_range (List.replicate 10 (9 : Nat)) 3 (some 12)).headers ∧
    ("Content-Length", toString (12 - 3 + 1))
      ∈ (Netflix.serve_range (List.replicate 10 (9 : Nat)) 3 (some 12)).headers ∧
    (Netflix.serve_range (List.replicate 10 (9 : Nat)) 3 (some 12)).body.length
      = (List.replicate 10 (9 : Nat)).length - 3 ∧
    (Netflix.serve_range (List.replicate 10 (9 : Nat)) 3 (some 12)).body.length < 12 - 3 + 1) :=
  ⟨by rw [List.length_replicate]; norm_num, by rw [List.length_replicate]; norm_num,
   C10_end_past_eof_mismatch (List.replicate 10 (9 : Nat)) 3 12
     (by rw [List.length_replicate]; norm_num) (by rw [List.length_replicate]; norm_num)⟩

namespace Netflix

theorem gen_art_exists (env : ThumbEnv) (h : env.artifactExists = true) :
    generate_thumbnail env =
      if env.ffmpegAvailable = false then ⟨false, 0, 0, false⟩ else ⟨true, 0, 0, false⟩ := by
  obtain ⟨ff, art, pe, pr, dec⟩ := env
  cases art
  · cases h
  · cases ff <;> simp [generate_thumbnail]

theorem gen_second_call (env : ThumbEnv) (h : (generate_thumbnail env).ret = true) :
    generate_thumbnail (thumb_after env) = ⟨true, 0, 0, false⟩ := by
  obtain ⟨ff, art, pe, pr, dec⟩ := env
  simp only [generate_thumbnail, thumb_after] at h ⊢
  cases ff
  · simp at h
  · cases art
    · generalize hg : IMAGE_EXT.find? (fun e => pe.contains e) = fr at h ⊢
      cases fr
      · cases dec
        · simp at h
        · simp
      · cases pr
        · cases dec
          · simp at h
          · simp
        · simp
    · simp

end Netflix

namespace AppThumbs

theorem awt_gen_second_call (a dec : Bool)
    (h : (AppThumbs.generate_thumbnail a dec).ret = true) :
    AppThumbs.generate_thumbnail (a || (AppThumbs.generate_thumbnail a dec).wrote_artifact) dec
      = ⟨true, 0, 0, false⟩ := by
  cases a
  · cases dec
    · exfalso
      simp [AppThumbs.generate_thumbnail] at h
    · simp [AppThumbs.generate_thumbnail]
  · simp [AppThumbs.generate_thumbnail]

end AppThumbs

/-- Counterexample to claim C7 as stated: in netflix.py, when ffmpeg-python
is not importable (`FFMPEG_AVAILABLE` false), `generate_thumbnail` returns
False even though the artifact file already exists, instead of the True the
claim asserts (the early return precedes the artifact-exists check). -/
theorem C7_counterexample :
    (Netflix.ThumbEnv.mk false true [] true true).artifactExists = true ∧
    (Netflix.generate_thumbnail (Netflix.ThumbEnv.mk false true [] true true)).ret = false ∧
    ¬ (Netflix.generate_thumbnail (Netflix.ThumbEnv.mk false true [] true true)).ret = true := by
  decide

/-- Claim C7 (amended): when the artifact already exists, neither variant
invokes the poster resize or the video decoder, netflix.py returns True
provided ffmpeg-python is importable (and False otherwise), and
app_with_thumbnails.py returns a truthy value unconditionally; consequently,
in both variants, once a call has returned truthy a repeat call performs no
derivation work at all and returns truthy. -/
theorem C7_thumbnail_write_once (env : Netflix.ThumbEnv) (a dec : Bool)
    (hart : env.artifactExists = true) :
    ((Netflix.generate_thumbnail env).resize_calls = 0 ∧
     (Netflix.generate_thumbnail env).decoder_calls = 0 ∧
     (env.ffmpegAvailable = true → (Netflix.generate_thumbnail env).ret = true)) ∧
    AppThumbs.generate_thumbnail true dec = ⟨true, 0, 0, false⟩ ∧
    ((Netflix.generate_thumbnail env).ret = true →
      Netflix.generate_thumbnail (Netflix.thumb_after env) = ⟨true, 0, 0, false⟩) ∧
    ((AppThumbs.generate_thumbnail a dec).ret = true →
      AppThumbs.generate_thumbnail (a || (AppThumbs.generate_thumbnail a dec).wrote_artifact) dec
        = ⟨true, 0, 0, false⟩) := by
  refine ⟨?_, rfl, Netflix.gen_second_call env, AppThumbs.awt_gen_second_call a dec⟩
  rw [Netflix.gen_art_exists env hart]
  by_cases hff : env.ffmpegAvailable = false
  · rw [if_pos hff]
    refine ⟨rfl, rfl, ?_⟩
    intro h
    rw [h] at hff
    cases hff
  · rw [if_neg hff]
    exact ⟨rfl, rfl, fun _ => rfl⟩

/-- Witness for C7 (amended) with the artifact present and ffmpeg available. -/
theorem C7_witness :
    (Netflix.ThumbEnv.mk true true [".jpg"] true true).artifactExists = true ∧
    (((Netflix.generate_thumbnail (Netflix.ThumbEnv.mk true true [".jpg"] true true)).resize_calls = 0 ∧
      (Netflix.generate_thumbnail (Netflix.ThumbEnv.mk true true [".jpg"] true true)).decoder_calls = 0 ∧
      ((Netflix.ThumbEnv.mk true true [".jpg"] true true).ffmpegAvailable = true →
        (Netflix.generate_thumbnail (Netflix.ThumbEnv.mk true true [".jpg"] true true)).ret = true)) ∧
    AppThumbs.generate_thumbnail true true = ⟨true, 0, 0, false⟩ ∧
    ((Netflix.generate_thumbnail (Netflix.ThumbEnv.mk true true [".jpg"] true true)).ret = true →
      Netflix.generate_thumbnail (Netflix.thumb_after (Netflix.ThumbEnv.mk true true [".jpg"] true true))
        = ⟨true, 0, 0, false⟩) ∧
    ((AppThumbs.generate_thumbnail false true).ret = true →
      AppThumbs.generate_thumbnail
          (false || (AppThumbs.generate_thumbnail false true).wrote_artifact) true
        = ⟨true, 0, 0, false⟩)) :=
  ⟨rfl, C7_thumbnail_write_once (Netflix.ThumbEnv.mk true true [".jpg"] true true) false true rfl⟩

/-- Counterexample to claim C8 as stated: in netflix.py, with ffmpeg-python
unavailable, a media file with a sibling `.jpg` poster and no artifact yet
gets no poster-only fallback: `generate_thumbnail` returns False without
writing any artifact or calling the resize step. -/
theorem C8_counterexample :
    (Netflix.ThumbEnv.mk false false [".jpg"] true true).ffmpegAvailable = false ∧
    (Netflix.generate_thumbnail (Netflix.ThumbEnv.mk false false [".jpg"] true true)).ret = false ∧
    (Netflix.generate_thumbnail (Netflix.ThumbEnv.mk false false [".jpg"] true true)).wrote_artifact
      = false ∧
    (Netflix.generate_thumbnail (Netflix.ThumbEnv.mk false false [".jpg"] true true)).resize_calls
      = 0 := by
  decide

/-- Claim C8 (amended): when ffmpeg-python is unavailable, netflix.py
disables thumbnailing entirely — `generate_thumbnail` returns False
immediately without attempting the poster fallback, performing no resize, no
decode and no artifact write — while `get_video_duration` returns 0, so the
item's duration stays 0. -/
theorem C8_no_ffmpeg_no_thumbnail (env : Netflix.ThumbEnv) (probe : Option Nat)
    (hff : env.ffmpegAvailable = false) :
    Netflix.generate_thumbnail env = ⟨false, 0, 0, false⟩ ∧
    Netflix.get_video_duration env.ffmpegAvailable probe = 0 := by
  obtain ⟨ff, art, pe, pr, dec⟩ := env
  cases hff
  exact ⟨rfl, rfl⟩

/-- Witness for C8 (amended) with a poster present. -/
theorem C8_witness :
    (Netflix.ThumbEnv.mk false false [".png"] true true).ffmpegAvailable = false ∧
    (Netflix.generate_thumbnail (Netflix.ThumbEnv.mk false false [".png"] true true)
        = ⟨false, 0, 0, false⟩ ∧
      Netflix.get_video_duration
          (Netflix.ThumbEnv.mk false false [".png"] true true).ffmpegAvailable (some 42) = 0) :=
  ⟨rfl, C8_no_ffmpeg_no_thumbnail (Netflix.ThumbEnv.mk false false [".png"] true true) (some 42) rfl⟩

/-- Counterexample to claim C3 as stated: netflix.py's `stream_media`
performs no canonicalization and no media-root containment check.  With the
catalog pointing id 1 at the existing file "/etc/passwd", which does not lie
under the media root "/media", the route answers 200 and streams the file's
bytes instead of the 403 the claim requires. -/
theorem C3_counterexample :
    startswith "/etc/passwd" "/media" = false ∧
    (Netflix.stream_media
        ⟨[(1, "/etc/passwd")], [("/etc/passwd", [114, 111, 111, 116])]⟩ 1 none).status = 200 ∧
    ¬ (Netflix.stream_media
        ⟨[(1, "/etc/passwd")], [("/etc/passwd", [114, 111, 111, 116])]⟩ 1 none).status = 403 ∧
    (Netflix.stream_media
        ⟨[(1, "/etc/passwd")], [("/etc/passwd", [114, 111, 111, 116])]⟩ 1 none).body
      = [114, 111, 111, 116] := by
  decide

/-- Claim C3 (amended): in app_with_thumbnails.py the stored path of a known
catalog id is resolved and subjected to a string-prefix test against
`str(MEDIA_DIR)` before serving: 403 with no body when the resolved path
does not start with the media-root string, 404 with no body when it does but
the file no longer exists, and the file's bytes whenever the prefix test
passes and the file exists.  That prefix test is weaker than containment
under the media-root directory: a resolved sibling path such as
"/mediaEvil/x" starts with the root string "/media" without lying under the
directory "/media/", so it is served when it exists.  netflix.py's
`stream_media` answers 404 with no body for a missing file but performs no
containment check at all (see the counterexample). -/
theorem C3_path_sandbox (env : AppThumbs.StreamEnv) (mediaDir : String) (mid : Nat)
    (pr : Nat × String) (resolved : String)
    (hfind : env.media_db.find? (fun q => q.1 == mid) = some pr)
    (hres : env.resolve pr.2 = some resolved) :
    (startswith resolved mediaDir = false →
      AppThumbs.stream env mediaDir mid = ⟨403, [], []⟩) ∧
    (startswith resolved mediaDir = true → env.fs_exists.contains resolved = false →
      AppThumbs.stream env mediaDir mid = ⟨404, [], []⟩) ∧
    (startswith resolved mediaDir = true → env.fs_exists.contains resolved = true →
      AppThumbs.stream env mediaDir mid
        = ⟨200, [("Accept-Ranges", "bytes")], env.contentOf resolved⟩) ∧
    (∀ (nfenv : Netflix.StreamEnv) (pr2 : Nat × String) (rh : Option String),
      nfenv.media_db.find? (fun q => q.1 == mid) = some pr2 →
      nfenv.fs_files.find? (fun fc => fc.1 == pr2.2) = none →
      Netflix.stream_media nfenv mid rh = ⟨404, [], []⟩) ∧
    (startswith "/mediaEvil/x" "/media" = true ∧
      startswith "/mediaEvil/x" "/media/" = false) := by
  refine ⟨?_, ?_, ?_, ?_, ?_⟩
  · intro hpre
    simp only [AppThumbs.stream, hfind, AppThumbs.secure_media_path, hres, hpre]
    rfl
  · intro hpre hex
    simp only [AppThumbs.stream, hfind, AppThumbs.secure_media_path, hres, hpre, hex]
    rfl
  · intro hpre hex
    simp only [AppThumbs.stream, hfind, AppThumbs.secure_media_path, hres, hpre, hex]
    rfl
  · intro nfenv pr2 rh hf2 hn2
    simp only [Netflix.stream_media, hf2, hn2]
  · decide

/-- Witness for C3 (amended): a catalog entry whose stored path resolves to
the existing file "/mediaEvil/x", which passes the prefix test for the media
root "/media" despite escaping the root directory. -/
theorem C3_witness :
    (AppThumbs.StreamEnv.mk [(1, "/mediaEvil/x")] (fun s => some s) ["/mediaEvil/x"]
        (fun _ => [9])).media_db.find? (fun q => q.1 == 1) = some (1, "/mediaEvil/x") ∧
    ((AppThumbs.StreamEnv.mk [(1, "/mediaEvil/x")] (fun s => some s) ["/mediaEvil/x"]
        (fun _ => [9])).resolve "/mediaEvil/x" = some "/mediaEvil/x") ∧
    ((startswith "/mediaEvil/x" "/media" = false →
      AppThumbs.stream (AppThumbs.StreamEnv.mk [(1, "/mediaEvil/x")] (fun s => some s)
        ["/mediaEvil/x"] (fun _ => [9])) "/media" 1 = ⟨403, [], []⟩) ∧
    (startswith "/mediaEvil/x" "/media" = true →
      (AppThumbs.StreamEnv.mk [(1, "/mediaEvil/x")] (fun s => some s) ["/mediaEvil/x"]
        (fun _ => [9])).fs_exists.contains "/mediaEvil/x" = false →
      AppThumbs.stream (AppThumbs.StreamEnv.mk [(1, "/mediaEvil/x")] (fun s => some s)
        ["/mediaEvil/x"] (fun _ => [9])) "/media" 1 = ⟨404, [], []⟩) ∧
    (startswith "/mediaEvil/x" "/media" = true →
      (AppThumbs.StreamEnv.mk [(1, "/mediaEvil/x")] (fun s => some s) ["/mediaEvil/x"]
        (fun _ => [9])).fs_exists.contains "/mediaEvil/x" = true →
      AppThumbs.stream (AppThumbs.StreamEnv.mk [(1, "/mediaEvil/x")] (fun s => some s)
        ["/mediaEvil/x"] (fun _ => [9])) "/media" 1
        = ⟨200, [("Accept-Ranges", "bytes")],
            (AppThumbs.StreamEnv.mk [(1, "/mediaEvil/x")] (fun s => some s) ["/mediaEvil/x"]
              (fun _ => [9])).contentOf "/mediaEvil/x"⟩) ∧
    (∀ (nfenv : Netflix.StreamEnv) (pr2 : Nat × String) (rh : Option String),
      nfenv.media_db.find? (fun q => q.1 == 1) = some pr2 →
      nfenv.fs_files.find? (fun fc => fc.1 == pr2.2) = none →
      Netflix.stream_media nfenv 1 rh = ⟨404, [], []⟩) ∧
    (startswith "/mediaEvil/x" "/media" = true ∧
      startswith "/mediaEvil/x" "/media/" = false)) :=
  ⟨rfl, rfl,
   C3_path_sandbox (AppThumbs.StreamEnv.mk [(1, "/mediaEvil/x")] (fun s => some s)
     ["/mediaEvil/x"] (fun _ => [9])) "/media" 1 (1, "/mediaEvil/x") "/mediaEvil/x" rfl rfl⟩

theorem find_append_none {α : Type} (p : α → Bool) (l1 l2 : List α)
    (h : l1.find? p = none) : (l1 ++ l2).find? p = l2.find? p := by
  induction l1 with
  | nil => simp
  | cons a t ih =>
    rw [List.cons_append]
    cases hpa : p a
    · rw [List.find?_cons_of_neg _ (by simp [hpa])] at h ⊢
      exact ih h
    · rw [List.find?_cons_of_pos _ hpa] at h
      cases h

/-- Counterexample to claim C5 as stated: app_with_thumbnails.py's
`api_progress` INSERTs a new `watch_history` row on every report, so the two
reports (profile 1, item 7, t=30) then (profile 1, item 7, t=45) leave two
rows for the pair, not exactly one. -/
theorem C5_counterexample :
    ((AppThumbs.api_progress
        (AppThumbs.api_progress [] 1 true 1 7 30 100).2.1
        (AppThumbs.api_progress [] 1 true 1 7 30 100).2.2 true 1 7 45 200).2.1.filter
      (fun r => r.profile_id == 1 && r.media_id == 7)).length = 2 ∧
    ¬ ((AppThumbs.api_progress
        (AppThumbs.api_progress [] 1 true 1 7 30 100).2.1
        (AppThumbs.api_progress [] 1 true 1 7 30 100).2.2 true 1 7 45 200).2.1.filter
      (fun r => r.profile_id == 1 && r.media_id == 7)).length = 1 := by
  decide

/-- Claim C5 (amended): netflix.py's `api_watch_progress` is an upsert keyed
by (profile, item): starting from a table with no row for the pair, the two
reports t1 then t2 (both non-negative) leave exactly one `watch_progress`
row for the pair and its stored time is t2.  app_with_thumbnails.py's
`api_progress`, by contrast, appends a fresh `watch_history` row per report,
so the same two reports leave two rows for the pair. -/
theorem C5_progress_upsert (db : List Netflix.ProgressRow) (n p i : Nat) (t1 t2 : Int)
    (now1 now2 : Nat) (adb : List AppThumbs.HistoryRow) (an ap ai : Nat)
    (apos1 apos2 : Int) (anow1 anow2 : Nat)
    (hnone : (db.filter (fun r => r.profile_id == p && r.media_id == i)).length = 0)
    (hanone : (adb.filter (fun r => r.profile_id == ap && r.media_id == ai)).length = 0)
    (ht1 : 0 ≤ t1) (ht2 : 0 ≤ t2) :
    ((Netflix.api_watch_progress
          (Netflix.api_watch_progress db n p i t1 now1).2.1
          (Netflix.api_watch_progress db n p i t1 now1).2.2 p i t2 now2).2.1.filter
        (fun r => r.profile_id == p && r.media_id == i)).map
      (fun r => r.current_time) = [t2] ∧
    ((AppThumbs.api_progress
          (AppThumbs.api_progress adb an true ap ai apos1 anow1).2.1
          (AppThumbs.api_progress adb an true ap ai apos1 anow1).2.2
          true ap ai apos2 anow2).2.1.filter
        (fun r => r.profile_id == ap && r.media_id == ai)).length = 2 := by
  have hfilnil : db.filter (fun r => r.profile_id == p && r.media_id == i) = [] :=
    List.length_eq_zero.mp hnone
  have hpred : ∀ r ∈ db, (r.profile_id == p && r.media_id == i) = false := by
    intro r hr
    have := List.filter_eq_nil_iff.mp hfilnil r hr
    simpa using this
  have hfn : db.find? (fun r => r.profile_id == p && r.media_id == i) = none :=
    List.find?_eq_none.mpr (fun r hr => by simp [hpred r hr])
  have h1 : Netflix.api_watch_progress db n p i t1 now1
      = (⟨200, true, some t1⟩, db ++ [⟨n, p, i, t1, now1⟩], n + 1) := by
    unfold Netflix.api_watch_progress
    rw [if_neg (by omega), hfn]
  have hf2 : (db ++ [(⟨n, p, i, t1, now1⟩ : Netflix.ProgressRow)]).find?
      (fun r => r.profile_id == p && r.media_id == i)
      = some ⟨n, p, i, t1, now1⟩ := by
    rw [find_append_none _ _ _ hfn]
    simp
  constructor
  · rw [h1]
    unfold Netflix.api_watch_progress
    rw [if_neg (by omega), hf2]
    simp only [List.map_append, List.filter_append]
    have hm : (db.map (fun r =>
        if r.id == (⟨n, p, i, t1, now1⟩ : Netflix.ProgressRow).id then
          { r with current_time := t2, last_watched := now2 } else r)).filter
        (fun r => r.profile_id == p && r.media_id == i) = [] := by
      apply List.filter_eq_nil_iff.mpr
      intro a ha
      obtain ⟨r, hr, rfl⟩ := List.mem_map.mp ha
      by_cases hid : (r.id == n) = true <;>
        simp [hid, hpred r hr]
    rw [hm]
    simp
  · have ha1 : AppThumbs.api_progress adb an true ap ai apos1 anow1
        = ((200, true), adb ++ [⟨an, ap, ai, apos1, anow1⟩], an + 1) := rfl
    rw [ha1]
    have ha2 : AppThumbs.api_progress (adb ++ [⟨an, ap, ai, apos1, anow1⟩]) (an + 1)
        true ap ai apos2 anow2
        = ((200, true), (adb ++ [⟨an, ap, ai, apos1, anow1⟩]) ++ [⟨an + 1, ap, ai, apos2, anow2⟩],
           an + 2) := rfl
    rw [ha2]
    have hafil : adb.filter (fun r => r.profile_id == ap && r.media_id == ai) = [] :=
      List.length_eq_zero.mp hanone
    simp [List.filter_append, hafil]

/-- Witness for C5 (amended) from empty tables. -/
theorem C5_witness :
    (([] : List Netflix.ProgressRow).filter
      (fun r => r.profile_id == 1 && r.media_id == 7)).length = 0 ∧
    (([] : List AppThumbs.HistoryRow).filter
      (fun r => r.profile_id == 1 && r.media_id == 7)).length = 0 ∧
    (0 : Int) ≤ 30 ∧ (0 : Int) ≤ 45 ∧
    (((Netflix.api_watch_progress
          (Netflix.api_watch_progress [] 1 1 7 30 100).2.1
          (Netflix.api_watch_progress [] 1 1 7 30 100).2.2 1 7 45 200).2.1.filter
        (fun r => r.profile_id == 1 && r.media_id == 7)).map
      (fun r => r.current_time) = [45] ∧
    ((AppThumbs.api_progress
          (AppThumbs.api_progress [] 1 true 1 7 30 100).2.1
          (AppThumbs.api_progress [] 1 true 1 7 30 100).2.2
          true 1 7 45 200).2.1.filter
        (fun r => r.profile_id == 1 && r.media_id == 7)).length = 2) :=
  ⟨rfl, rfl, by norm_num, by norm_num,
   C5_progress_upsert [] 1 1 7 30 45 100 200 [] 1 1 7 30 45 100 200
     rfl rfl (by norm_num) (by norm_num)⟩

/-- Counterexample to claim C6 as stated: app_with_thumbnails.py's
`api_progress` accepts a negative position: reporting -5 answers 200 (not a
400 validation failure) and inserts a `watch_history` row storing -5. -/
theorem C6_counterexample :
    (AppThumbs.api_progress [] 1 true 1 7 (-5) 100).1.1 = 200 ∧
    ¬ (AppThumbs.api_progress [] 1 true 1 7 (-5) 100).1.1 = 400 ∧
    (AppThumbs.api_progress [] 1 true 1 7 (-5) 100).2.1
      = [⟨1, 1, 7, -5, 100⟩] := by
  decide

/-- Claim C6 (amended): netflix.py's `api_watch_progress` rejects a negative
time with 400 and leaves the table and the id counter untouched, and answers
200 echoing the stored value for any non-negative time; app_with_thumbnails.py's
`api_progress` performs no such validation: an authenticated report always
answers 200 and appends a row storing the posted position, negative or not. -/
theorem C6_negative_elapsed_rejected (db : List Netflix.ProgressRow) (n p i : Nat)
    (t : Int) (now : Nat) (adb : List AppThumbs.HistoryRow) (an ap ai : Nat)
    (apos : Int) (anow : Nat) (hneg : t < 0) :
    (Netflix.api_watch_progress db n p i t now).1 = ⟨400, false, none⟩ ∧
    (Netflix.api_watch_progress db n p i t now).2.1 = db ∧
    (Netflix.api_watch_progress db n p i t now).2.2 = n ∧
    (∀ t' : Int, 0 ≤ t' →
      (Netflix.api_watch_progress db n p i t' now).1 = ⟨200, true, some t'⟩) ∧
    ((AppThumbs.api_progress adb an true ap ai apos anow).1 = (200, true) ∧
      (AppThumbs.api_progress adb an true ap ai apos anow).2.1
        = adb ++ [⟨an, ap, ai, apos, anow⟩]) := by
  have e1 : Netflix.api_watch_progress db n p i t now = (⟨400, false, none⟩, db, n) := by
    unfold Netflix.api_watch_progress
    rw [if_pos hneg]
  refine ⟨by rw [e1], by rw [e1], by rw [e1], ?_, rfl, rfl⟩
  intro t' ht'
  unfold Netflix.api_watch_progress
  rw [if_neg (by omega)]
  cases hf : db.find? (fun r => r.profile_id == p && r.media_id == i) <;> simp [hf]

/-- Witness for C6 (amended) at t = -3. -/
theorem C6_witness :
    (-3 : Int) < 0 ∧
    ((Netflix.api_watch_progress [] 1 1 7 (-3) 100).1 = ⟨400, false, none⟩ ∧
    (Netflix.api_watch_progress [] 1 1 7 (-3) 100).2.1 = [] ∧
    (Netflix.api_watch_progress [] 1 1 7 (-3) 100).2.2 = 1 ∧
    (∀ t' : Int, 0 ≤ t' →
      (Netflix.api_watch_progress [] 1 1 7 t' 100).1 = ⟨200, true, some t'⟩) ∧
    ((AppThumbs.api_progress [] 1 true 1 7 (-3) 100).1 = (200, true) ∧
      (AppThumbs.api_progress [] 1 true 1 7 (-3) 100).2.1
        = [] ++ [⟨1, 1, 7, -3, 100⟩])) :=
  ⟨by norm_num,
   C6_negative_elapsed_rejected [] 1 1 7 (-3) 100 [] 1 1 7 (-3) 100 (by norm_num)⟩

/-- Counterexample to claim C9 as stated: a file stored under a top-level
directory literally named "Uncategorized" is not directly under the media
root, yet its derived category equals the sentinel — so "equals the sentinel
exactly when the file sits directly under the root" fails. -/
theorem C9_counterexample :
    Netflix.scan_category ["Uncategorized"] = "Uncategorized" ∧
    AppThumbs.awt_category ["Uncategorized"] = "Uncategorized" ∧
    (["Uncategorized"] : List String) ≠ [] := by
  decide

/-- Claim C9 (amended): the derived category is the first path segment of
the file's location relative to the media root whenever the file is nested
(not the last segment / parent directory), and is the sentinel
"Uncategorized" when the file sits directly under the root; the category
equals the sentinel exactly when the file is directly under the root or its
top-level directory is itself named "Uncategorized".  Both sources derive
the same category. -/
theorem C9_category_first_segment (dirs : List String) (fname : String) :
    (dirs ≠ [] → Netflix.scan_category dirs = (dirs ++ [fname]).headD "") ∧
    (dirs = [] → Netflix.scan_category dirs = "Uncategorized") ∧
    (Netflix.scan_category dirs = "Uncategorized" ↔
      (dirs = [] ∨ dirs.headD "" = "Uncategorized")) ∧
    AppThumbs.awt_category dirs = Netflix.scan_category dirs := by
  cases dirs with
  | nil => simp [Netflix.scan_category, AppThumbs.awt_category]
  | cons d ds => simp [Netflix.scan_category, AppThumbs.awt_category]

/-- Witness for C9 (amended) at a doubly nested file. -/
theorem C9_witness :
    (["Movies", "Action"] : List String) ≠ [] ∧
    ((["Movies", "Action"] ≠ ([] : List String) →
      Netflix.scan_category ["Movies", "Action"]
        = (["Movies", "Action"] ++ ["x.mp4"]).headD "") ∧
    (["Movies", "Action"] = ([] : List String) →
      Netflix.scan_category ["Movies", "Action"] = "Uncategorized") ∧
    (Netflix.scan_category ["Movies", "Action"] = "Uncategorized" ↔
      (["Movies", "Action"] = ([] : List String) ∨
        (["Movies", "Action"] : List String).headD "" = "Uncategorized")) ∧
    AppThumbs.awt_category ["Movies", "Action"]
      = Netflix.scan_category ["Movies", "Action"]) :=
  ⟨by decide, C9_category_first_segment ["Movies", "Action"] "x.mp4"⟩

namespace Netflix

theorem scan_insert_shape (durOf : FsFile → Nat) (thumbOk : FsFile → Bool)
    (old : List (List String × Nat)) (st : ScanState) (f : FsFile) :
    (old.find? (fun pr => pr.1 == fullPath f) = none ∧
      scan_insert durOf thumbOk old st f
        = { st with
            db := st.db ++ [{ id := st.nextId, title := title_of f.stem, path := fullPath f,
                              category := scan_category f.dirs, duration := durOf f,
                              has_thumbnail := thumbOk f, has_subtitle := false }],
            nextId := st.nextId + 1, newCount := st.newCount + 1 }) ∨
    ((∃ pr, old.find? (fun pr => pr.1 == fullPath f) = some pr) ∧
      scan_insert durOf thumbOk old st f = st) := by
  unfold scan_insert
  cases hx : old.find? (fun pr => pr.1 == fullPath f) with
  | none =>
    left
    exact ⟨rfl, by simp⟩
  | some pr =>
    right
    exact ⟨⟨pr, rfl⟩, by simp⟩

theorem scan_subtitle_shape (fs : MediaFS) (old : List (List String × Nat))
    (st : ScanState) (f : FsFile) :
    scan_subtitle fs old st f = st ∨
    ∃ m, scan_subtitle fs old st f
      = { st with
          db := st.db.map (fun r =>
            if r.id == m then { r with has_subtitle := (find_subtitle fs f).isSome } else r),
          updatedCount := st.updatedCount + 1 } := by
  unfold scan_subtitle
  split
  · left
    rfl
  · split
    · left
      rfl
    · split
      · right
        exact ⟨_, rfl⟩
      · left
        rfl

theorem scan_insert_exists_pathid (durOf : FsFile → Nat) (thumbOk : FsFile → Bool)
    (old : List (List String × Nat)) (st : ScanState) (f : FsFile)
    (P : List String → Nat → Prop) (h : ∃ r ∈ st.db, P r.path r.id) :
    ∃ r ∈ (scan_insert durOf thumbOk old st f).db, P r.path r.id := by
  rcases scan_insert_shape durOf thumbOk old st f with ⟨_, he⟩ | ⟨_, he⟩ <;> rw [he]
  · obtain ⟨r, hr, hP⟩ := h
    exact ⟨r, List.mem_append_left _ hr, hP⟩
  · exact h

theorem scan_subtitle_exists_pathid (fs : MediaFS) (old : List (List String × Nat))
    (st : ScanState) (f : FsFile)
    (P : List String → Nat → Prop) (h : ∃ r ∈ st.db, P r.path r.id) :
    ∃ r ∈ (scan_subtitle fs old st f).db, P r.path r.id := by
  rcases scan_subtitle_shape fs old st f with he | ⟨m, he⟩ <;> rw [he]
  · exact h
  · obtain ⟨r, hr, hP⟩ := h
    refine ⟨_, List.mem_map_of_mem _ hr, ?_⟩
    by_cases hid : (r.id == m) = true <;> simp only [hid, if_true, if_false] <;> exact hP

theorem scan_step_exists_pathid (fs : MediaFS) (durOf : FsFile → Nat) (thumbOk : FsFile → Bool)
    (old : List (List String × Nat)) (st : ScanState) (f : FsFile)
    (P : List String → Nat → Prop) (h : ∃ r ∈ st.db, P r.path r.id) :
    ∃ r ∈ (scan_step fs durOf thumbOk old st f).db, P r.path r.id :=
  scan_subtitle_exists_pathid fs old _ f P
    (scan_insert_exists_pathid durOf thumbOk old st f P h)

theorem scan_fold_exists_pathid (fs : MediaFS) (durOf : FsFile → Nat) (thumbOk : FsFile → Bool)
    (old : List (List String × Nat)) (L : List FsFile)
    (P : List String → Nat → Prop) :
    ∀ st : ScanState, (∃ r ∈ st.db, P r.path r.id) →
      ∃ r ∈ (L.foldl (scan_step fs durOf thumbOk old) st).db, P r.path r.id := by
  induction L with
  | nil => exact fun st h => h
  | cons g L ih =>
    intro st h
    rw [List.foldl_cons]
    exact ih _ (scan_step_exists_pathid fs durOf thumbOk old st g P h)

theorem scan_step_all_pathid (fs : MediaFS) (durOf : FsFile → Nat) (thumbOk : FsFile → Bool)
    (old : List (List String × Nat)) (st : ScanState) (f : FsFile)
    (Q : List String → Nat → Prop)
    (h : ∀ r ∈ st.db, Q r.path r.id) (hnew : ∀ n, Q (fullPath f) n) :
    ∀ r ∈ (scan_step fs durOf thumbOk old st f).db, Q r.path r.id := by
  unfold scan_step
  have h1 : ∀ r ∈ (scan_insert durOf thumbOk old st f).db, Q r.path r.id := by
    rcases scan_insert_shape durOf thumbOk old st f with ⟨_, he⟩ | ⟨_, he⟩ <;> rw [he]
    · intro r hr
      rcases List.mem_append.mp hr with hr0 | hrnew
      · exact h r hr0
      · rcases List.mem_singleton.mp hrnew with rfl
        exact hnew _
    · exact h
  rcases scan_subtitle_shape fs old (scan_insert durOf thumbOk old st f) f
    with he | ⟨m, he⟩ <;> rw [he]
  · exact h1
  · intro r hr
    obtain ⟨r0, hr0, rfl⟩ := List.mem_map.mp hr
    by_cases hid : (r0.id == m) = true <;> simp only [hid, if_true, if_false] <;>
      exact h1 r0 hr0

theorem scan_fold_all_pathid (fs : MediaFS) (durOf : FsFile → Nat) (thumbOk : FsFile → Bool)
    (old : List (List String × Nat)) (L : List FsFile)
    (Q : List String → Nat → Prop)
    (hnew : ∀ f ∈ L, ∀ n, Q (fullPath f) n) :
    ∀ st : ScanState, (∀ r ∈ st.db, Q r.path r.id) →
      ∀ r ∈ (L.foldl (scan_step fs durOf thumbOk old) st).db, Q r.path r.id := by
  induction L with
  | nil => exact fun st h => h
  | cons g L ih =>
    intro st h
    rw [List.foldl_cons]
    exact ih (fun f hf => hnew f (List.mem_cons_of_mem _ hf)) _
      (scan_step_all_pathid fs durOf thumbOk old st g Q h
        (hnew g (List.mem_cons_self _ _)))

theorem scan_subtitle_counts (fs : MediaFS) (old : List (List String × Nat))
    (st : ScanState) (f : FsFile) :
    (scan_subtitle fs old st f).newCount = st.newCount ∧
    (scan_subtitle fs old st f).nextId = st.nextId := by
  rcases scan_subtitle_shape fs old st f with he | ⟨m, he⟩ <;> rw [he]
  · exact ⟨rfl, rfl⟩
  · exact ⟨rfl, rfl⟩

theorem scan_step_nextId_le (fs : MediaFS) (durOf : FsFile → Nat) (thumbOk : FsFile → Bool)
    (old : List (List String × Nat)) (st : ScanState) (f : FsFile) :
    st.nextId ≤ (scan_step fs durOf thumbOk old st f).nextId := by
  unfold scan_step
  rw [(scan_subtitle_counts fs old (scan_insert durOf thumbOk old st f) f).2]
  rcases scan_insert_shape durOf thumbOk old st f with ⟨_, he⟩ | ⟨_, he⟩ <;> rw [he]
  all_goals simp

end Netflix

namespace Netflix

theorem scan_fold_no_new (fs : MediaFS) (durOf : FsFile → Nat) (thumbOk : FsFile → Bool)
    (old : List (List String × Nat)) (L : List FsFile)
    (h : ∀ f ∈ L, ∃ pr, old.find? (fun q => q.1 == fullPath f) = some pr) :
    ∀ st : ScanState, (L.foldl (scan_step fs durOf thumbOk old) st).newCount = st.newCount := by
  induction L with
  | nil => exact fun st => rfl
  | cons g L ih =>
    intro st
    rw [List.foldl_cons]
    rw [ih (fun f hf => h f (List.mem_cons_of_mem _ hf))]
    unfold scan_step
    rw [(scan_subtitle_counts fs old (scan_insert durOf thumbOk old st g) g).1]
    obtain ⟨pr, hpr⟩ := h g (List.mem_cons_self _ _)
    rcases scan_insert_shape durOf thumbOk old st g with ⟨hnone, _⟩ | ⟨_, he⟩
    · rw [hpr] at hnone
      cases hnone
    · rw [he]

theorem scan_fold_fixed (fs : MediaFS) (durOf : FsFile → Nat) (thumbOk : FsFile → Bool)
    (old : List (List String × Nat)) (L : List FsFile) (D : List MediaRow)
    (hins : ∀ f ∈ L, ∃ pr, old.find? (fun q => q.1 == fullPath f) = some pr)
    (hflag : ∀ f ∈ L, ∀ pr, old.find? (fun q => q.1 == fullPath f) = some pr →
      ∀ row, D.find? (fun r => r.id == pr.2) = some row →
        row.has_subtitle = (find_subtitle fs f).isSome) :
    ∀ nid a b, L.foldl (scan_step fs durOf thumbOk old) ⟨D, nid, a, b⟩ = ⟨D, nid, a, b⟩ := by
  induction L with
  | nil => exact fun nid a b => rfl
  | cons g L ih =>
    intro nid a b
    rw [List.foldl_cons]
    have hstep : scan_step fs durOf thumbOk old ⟨D, nid, a, b⟩ g = ⟨D, nid, a, b⟩ := by
      obtain ⟨pr, hpr⟩ := hins g (List.mem_cons_self _ _)
      unfold scan_step
      have hinseq : scan_insert durOf thumbOk old ⟨D, nid, a, b⟩ g = ⟨D, nid, a, b⟩ := by
        unfold scan_insert
        rw [hpr]
        simp
      rw [hinseq]
      unfold scan_subtitle
      split
      · rfl
      · rename_i pr' hpr'
        split
        · rfl
        · rename_i row hrow
          split
          · rename_i hne
            exact absurd (hflag g (List.mem_cons_self _ _) pr' hpr' row hrow) hne
          · rfl
    rw [hstep]
    exact ih (fun f hf => hins f (List.mem_cons_of_mem _ hf))
      (fun f hf => hflag f (List.mem_cons_of_mem _ hf)) nid a b

theorem scan_fold_video_row (fs : MediaFS) (durOf : FsFile → Nat) (thumbOk : FsFile → Bool)
    (old : List (List String × Nat)) (n0 : Nat) (L : List FsFile) :
    ∀ st : ScanState,
      (∀ pr ∈ old, ∃ r ∈ st.db, r.path = pr.1 ∧ r.id = pr.2) →
      n0 ≤ st.nextId →
      ∀ f ∈ L, ∃ r ∈ (L.foldl (scan_step fs durOf thumbOk old) st).db,
        r.path = fullPath f ∧ (n0 ≤ r.id ∨ (fullPath f, r.id) ∈ old) := by
  induction L with
  | nil =>
    intro st _ _ f hf
    cases hf
  | cons g L ih =>
    intro st hpairs hn f hf
    rw [List.foldl_cons]
    have hpairs' : ∀ pr ∈ old, ∃ r ∈ (scan_step fs durOf thumbOk old st g).db,
        r.path = pr.1 ∧ r.id = pr.2 := fun pr hpr =>
      scan_step_exists_pathid fs durOf thumbOk old st g
        (fun q j => q = pr.1 ∧ j = pr.2) (hpairs pr hpr)
    have hn' : n0 ≤ (scan_step fs durOf thumbOk old st g).nextId :=
      le_trans hn (scan_step_nextId_le fs durOf thumbOk old st g)
    rcases List.mem_cons.mp hf with rfl | hfL
    · have hest : ∃ r ∈ (scan_step fs durOf thumbOk old st f).db,
          r.path = fullPath f ∧ (n0 ≤ r.id ∨ (fullPath f, r.id) ∈ old) := by
        unfold scan_step
        refine scan_subtitle_exists_pathid fs old _ f
          (fun q j => q = fullPath f ∧ (n0 ≤ j ∨ (fullPath f, j) ∈ old)) ?_
        rcases scan_insert_shape durOf thumbOk old st f with ⟨hnone, he⟩ | ⟨⟨pr, hfind⟩, he⟩ <;>
          rw [he]
        · exact ⟨_, List.mem_append_right _ (List.mem_singleton_self _), rfl, Or.inl hn⟩
        · have hbeq := List.find?_some hfind
          have hpr1 : pr.1 = fullPath f := by simpa using hbeq
          have hmem : pr ∈ old := List.mem_of_find?_eq_some hfind
          obtain ⟨r, hr, hrp, hri⟩ := hpairs pr hmem
          refine ⟨r, hr, by rw [hrp, hpr1], Or.inr ?_⟩
          rw [hri, ← hpr1]
          exact hmem
      exact scan_fold_exists_pathid fs durOf thumbOk old L
        (fun q j => q = fullPath f ∧ (n0 ≤ j ∨ (fullPath f, j) ∈ old))
        (scan_step fs durOf thumbOk old st f) hest
    · exact ih (scan_step fs durOf thumbOk old st g) hpairs' hn' f hfL

end Netflix

namespace Netflix

theorem scan_media_stable (fs : MediaFS) (durOf : FsFile → Nat) (thumbOk : FsFile → Bool)
    (db1 : List MediaRow) (n1 : Nat)
    (hF1 : ∀ r ∈ db1, r.path ∈ (video_files fs).map fullPath)
    (hF2 : ∀ f ∈ video_files fs, ∃ r ∈ db1, r.path = fullPath f) :
    (scan_media fs durOf thumbOk db1 n1).newCount = 0 ∧
    (scan_media fs durOf thumbOk db1 n1).removedCount = 0 ∧
    ((∀ f ∈ video_files fs, ∀ pr,
        (db1.map (fun r => (r.path, r.id))).find? (fun q => q.1 == fullPath f) = some pr →
        ∀ row, db1.find? (fun r => r.id == pr.2) = some row →
          row.has_subtitle = (find_subtitle fs f).isSome) →
      (scan_media fs durOf thumbOk db1 n1).updatedCount = 0) := by
  have hins : ∀ f ∈ video_files fs, ∃ pr,
      (db1.map (fun r => (r.path, r.id))).find? (fun q => q.1 == fullPath f) = some pr := by
    intro f hf
    obtain ⟨r, hr, hrp⟩ := hF2 f hf
    have hsome : ((db1.map (fun r => (r.path, r.id))).find?
        (fun q => q.1 == fullPath f)).isSome := by
      rw [List.find?_isSome]
      exact ⟨(r.path, r.id), List.mem_map_of_mem _ hr, by simp [hrp]⟩
    exact Option.isSome_iff_exists.mp hsome
  refine ⟨?_, ?_, ?_⟩
  · exact scan_fold_no_new fs durOf thumbOk (db1.map (fun r => (r.path, r.id)))
      (video_files fs) hins ⟨db1, n1, 0, 0⟩
  · have hemp : (db1.map (fun r => (r.path, r.id))).filter
        (fun pr => !(((video_files fs).map fullPath).contains pr.1)) = [] := by
      apply List.filter_eq_nil_iff.mpr
      intro pr hpr
      obtain ⟨r, hr, rfl⟩ := List.mem_map.mp hpr
      simp [hF1 r hr]
    have h2 : ((((db1.map (fun r => (r.path, r.id))).filter
        (fun pr => !(((video_files fs).map fullPath).contains pr.1))).map
        (fun pr => pr.2)).length) = 0 := by
      rw [hemp]
      rfl
    exact h2
  · intro H
    have h3 := scan_fold_fixed fs durOf thumbOk (db1.map (fun r => (r.path, r.id)))
      (video_files fs) db1 hins H n1 0 0
    have h4 : ((video_files fs).foldl
        (scan_step fs durOf thumbOk (db1.map (fun r => (r.path, r.id))))
        ⟨db1, n1, 0, 0⟩).updatedCount = 0 := by
      rw [h3]
    exact h4

theorem scan_media_db_covers (fs : MediaFS) (durOf : FsFile → Nat) (thumbOk : FsFile → Bool)
    (db0 : List MediaRow) (n0 : Nat)
    (hids : (db0.map (fun r => r.id)).Nodup)
    (hfresh : ∀ r ∈ db0, r.id < n0) :
    (∀ r ∈ (scan_media fs durOf thumbOk db0 n0).db,
      r.path ∈ (video_files fs).map fullPath) ∧
    (∀ f ∈ video_files fs, ∃ r ∈ (scan_media fs durOf thumbOk db0 n0).db,
      r.path = fullPath f) := by
  have hRowOk : ∀ r ∈ ((video_files fs).foldl
      (scan_step fs durOf thumbOk (db0.map (fun r => (r.path, r.id)))) ⟨db0, n0, 0, 0⟩).db,
      (r.path, r.id) ∈ db0.map (fun r => (r.path, r.id)) ∨
        r.path ∈ (video_files fs).map fullPath :=
    scan_fold_all_pathid fs durOf thumbOk (db0.map (fun r => (r.path, r.id))) (video_files fs)
      (fun q j => (q, j) ∈ db0.map (fun r => (r.path, r.id)) ∨
        q ∈ (video_files fs).map fullPath)
      (fun f hf n => Or.inr (List.mem_map_of_mem _ hf)) ⟨db0, n0, 0, 0⟩
      (fun r hr => Or.inl (List.mem_map_of_mem _ hr))
  have hridsmall : ∀ j ∈ (((db0.map (fun r => (r.path, r.id))).filter
      (fun pr => !(((video_files fs).map fullPath).contains pr.1))).map (fun pr => pr.2)),
      j < n0 := by
    intro j hj
    obtain ⟨pr, hprf, rfl⟩ := List.mem_map.mp hj
    obtain ⟨r0, hr0, rfl⟩ := List.mem_map.mp (List.mem_of_mem_filter hprf)
    exact hfresh r0 hr0
  constructor
  · intro r hr
    have hmem := List.mem_of_mem_filter hr
    have hcond := List.of_mem_filter hr
    have hnotin : r.id ∉ (((db0.map (fun r => (r.path, r.id))).filter
        (fun pr => !(((video_files fs).map fullPath).contains pr.1))).map (fun pr => pr.2)) := by
      simpa using hcond
    rcases hRowOk r hmem with hin | hp
    · by_contra hnp
      apply hnotin
      exact List.mem_map.mpr ⟨(r.path, r.id),
        List.mem_filter.mpr ⟨hin, by simpa using hnp⟩, rfl⟩
    · exact hp
  · intro f hf
    have hpairs0 : ∀ pr ∈ db0.map (fun r => (r.path, r.id)),
        ∃ r ∈ (⟨db0, n0, 0, 0⟩ : ScanState).db, r.path = pr.1 ∧ r.id = pr.2 := by
      intro pr hpr
      obtain ⟨r, hr, rfl⟩ := List.mem_map.mp hpr
      exact ⟨r, hr, rfl, rfl⟩
    obtain ⟨r, hrmem, hrp, hcase⟩ :=
      scan_fold_video_row fs durOf thumbOk (db0.map (fun r => (r.path, r.id))) n0
        (video_files fs) ⟨db0, n0, 0, 0⟩ hpairs0 (le_refl n0) f hf
    have hnotin : r.id ∉ (((db0.map (fun r => (r.path, r.id))).filter
        (fun pr => !(((video_files fs).map fullPath).contains pr.1))).map (fun pr => pr.2)) := by
      intro hjin
      obtain ⟨prb, hprbf, hprb2⟩ := List.mem_map.mp hjin
      have hprb_old : prb ∈ db0.map (fun r => (r.path, r.id)) :=
        List.mem_of_mem_filter hprbf
      have hprb_cond := List.of_mem_filter hprbf
      have hprb_np : prb.1 ∉ (video_files fs).map fullPath := by
        simpa using hprb_cond
      obtain ⟨rb, hrb, hrbeq⟩ := List.mem_map.mp hprb_old
      rcases hcase with hge | hpair
      · have h1 : rb.id < n0 := hfresh rb hrb
        have h2 : rb.id = prb.2 := congrArg Prod.snd hrbeq
        omega
      · obtain ⟨ra, hra, hraeq⟩ := List.mem_map.mp hpair
        have hra_id : ra.id = r.id := congrArg Prod.snd hraeq
        have hrb_id : rb.id = r.id := by
          have h2 : rb.id = prb.2 := congrArg Prod.snd hrbeq
          rw [h2, hprb2]
        have hab : ra = rb :=
          List.inj_on_of_nodup_map hids hra hrb (by rw [hra_id, hrb_id])
        have h1 : ra.path = fullPath f := congrArg Prod.fst hraeq
        have h2 : rb.path = prb.1 := congrArg Prod.fst hrbeq
        apply hprb_np
        rw [← h2, ← hab, h1]
        exact List.mem_map_of_mem _ hf
    exact ⟨r, List.mem_filter.mpr ⟨hrmem, by simpa using hnotin⟩, hrp⟩

end Netflix

/-- Counterexample to claim C4 as stated: on a media root holding movie.mp4
with a sibling movie.vtt, the first scan inserts the item but skips its
subtitle check (a freshly inserted row is not in the pre-loaded path dict),
so the second scan — with no filesystem change — still performs one
has_subtitle update: its updated count is 1, not 0. -/
theorem C4_counterexample :
    (Netflix.scan_media ⟨[⟨[], "movie", ".mp4"⟩, ⟨[], "movie", ".vtt"⟩]⟩
        (fun _ => 0) (fun _ => false) [] 1).newCount = 1 ∧
    (Netflix.scan_media ⟨[⟨[], "movie", ".mp4"⟩, ⟨[], "movie", ".vtt"⟩]⟩
        (fun _ => 0) (fun _ => false)
        (Netflix.scan_media ⟨[⟨[], "movie", ".mp4"⟩, ⟨[], "movie", ".vtt"⟩]⟩
          (fun _ => 0) (fun _ => false) [] 1).db
        (Netflix.scan_media ⟨[⟨[], "movie", ".mp4"⟩, ⟨[], "movie", ".vtt"⟩]⟩
          (fun _ => 0) (fun _ => false) [] 1).nextId).newCount = 0 ∧
    (Netflix.scan_media ⟨[⟨[], "movie", ".mp4"⟩, ⟨[], "movie", ".vtt"⟩]⟩
        (fun _ => 0) (fun _ => false)
        (Netflix.scan_media ⟨[⟨[], "movie", ".mp4"⟩, ⟨[], "movie", ".vtt"⟩]⟩
          (fun _ => 0) (fun _ => false) [] 1).db
        (Netflix.scan_media ⟨[⟨[], "movie", ".mp4"⟩, ⟨[], "movie", ".vtt"⟩]⟩
          (fun _ => 0) (fun _ => false) [] 1).nextId).removedCount = 0 ∧
    (Netflix.scan_media ⟨[⟨[], "movie", ".mp4"⟩, ⟨[], "movie", ".vtt"⟩]⟩
        (fun _ => 0) (fun _ => false)
        (Netflix.scan_media ⟨[⟨[], "movie", ".mp4"⟩, ⟨[], "movie", ".vtt"⟩]⟩
          (fun _ => 0) (fun _ => false) [] 1).db
        (Netflix.scan_media ⟨[⟨[], "movie", ".mp4"⟩, ⟨[], "movie", ".vtt"⟩]⟩
          (fun _ => 0) (fun _ => false) [] 1).nextId).updatedCount = 1 ∧
    ¬ (Netflix.scan_media ⟨[⟨[], "movie", ".mp4"⟩, ⟨[], "movie", ".vtt"⟩]⟩
        (fun _ => 0) (fun _ => false)
        (Netflix.scan_media ⟨[⟨[], "movie", ".mp4"⟩, ⟨[], "movie", ".vtt"⟩]⟩
          (fun _ => 0) (fun _ => false) [] 1).db
        (Netflix.scan_media ⟨[⟨[], "movie", ".mp4"⟩, ⟨[], "movie", ".vtt"⟩]⟩
          (fun _ => 0) (fun _ => false) [] 1).nextId).updatedCount = 0 := by
  decide

/-- Claim C4 (amended): with the SQLite invariants (distinct row ids, the
autoincrement counter past every existing id), a second `scan_media` run
over an unchanged filesystem inserts nothing and deletes nothing; and when
every row the second run's subtitle re-check reads already stores the
recomputed flag, it updates nothing either.  The flag hypothesis is needed
because the first run skips the subtitle check for the rows it inserts (they
are missing from its pre-loaded path dict), so a file first seen next to a
subtitle gets its has_subtitle flag persisted only on the following run. -/
theorem C4_second_scan_changes_nothing (fs : Netflix.MediaFS) (durOf : Netflix.FsFile → Nat)
    (thumbOk : Netflix.FsFile → Bool) (db0 : List Netflix.MediaRow) (n0 : Nat)
    (hids : (db0.map (fun r => r.id)).Nodup)
    (hfresh : ∀ r ∈ db0, r.id < n0) :
    (Netflix.scan_media fs durOf thumbOk (Netflix.scan_media fs durOf thumbOk db0 n0).db
        (Netflix.scan_media fs durOf thumbOk db0 n0).nextId).newCount = 0 ∧
    (Netflix.scan_media fs durOf thumbOk (Netflix.scan_media fs durOf thumbOk db0 n0).db
        (Netflix.scan_media fs durOf thumbOk db0 n0).nextId).removedCount = 0 ∧
    ((∀ f ∈ Netflix.video_files fs, ∀ pr,
        ((Netflix.scan_media fs durOf thumbOk db0 n0).db.map (fun r => (r.path, r.id))).find?
          (fun q => q.1 == Netflix.fullPath f) = some pr →
        ∀ row, (Netflix.scan_media fs durOf thumbOk db0 n0).db.find?
            (fun r => r.id == pr.2) = some row →
          row.has_subtitle = (Netflix.find_subtitle fs f).isSome) →
      (Netflix.scan_media fs durOf thumbOk (Netflix.scan_media fs durOf thumbOk db0 n0).db
          (Netflix.scan_media fs durOf thumbOk db0 n0).nextId).updatedCount = 0) := by
  obtain ⟨hF1, hF2⟩ := Netflix.scan_media_db_covers fs durOf thumbOk db0 n0 hids hfresh
  exact Netflix.scan_media_stable fs durOf thumbOk
    (Netflix.scan_media fs durOf thumbOk db0 n0).db
    (Netflix.scan_media fs durOf thumbOk db0 n0).nextId hF1 hF2

/-- Witness for C4 (amended) on a one-file tree from an empty table. -/
theorem C4_witness :
    (([] : List Netflix.MediaRow).map (fun r => r.id)).Nodup ∧
    (∀ r ∈ ([] : List Netflix.MediaRow), r.id < 1) ∧
    ((Netflix.scan_media ⟨[⟨[], "clip", ".mp4"⟩]⟩ (fun _ => 0) (fun _ => true)
        (Netflix.scan_media ⟨[⟨[], "clip", ".mp4"⟩]⟩ (fun _ => 0) (fun _ => true) [] 1).db
        (Netflix.scan_media ⟨[⟨[], "clip", ".mp4"⟩]⟩ (fun _ => 0) (fun _ => true) [] 1).nextId).newCount
        = 0 ∧
    (Netflix.scan_media ⟨[⟨[], "clip", ".mp4"⟩]⟩ (fun _ => 0) (fun _ => true)
        (Netflix.scan_media ⟨[⟨[], "clip", ".mp4"⟩]⟩ (fun _ => 0) (fun _ => true) [] 1).db
        (Netflix.scan_media ⟨[⟨[], "clip", ".mp4"⟩]⟩ (fun _ => 0) (fun _ => true) [] 1).nextId).removedCount
        = 0 ∧
    ((∀ f ∈ Netflix.video_files ⟨[⟨[], "clip", ".mp4"⟩]⟩, ∀ pr,
        ((Netflix.scan_media ⟨[⟨[], "clip", ".mp4"⟩]⟩ (fun _ => 0) (fun _ => true) [] 1).db.map
            (fun r => (r.path, r.id))).find?
          (fun q => q.1 == Netflix.fullPath f) = some pr →
        ∀ row, (Netflix.scan_media ⟨[⟨[], "clip", ".mp4"⟩]⟩ (fun _ => 0) (fun _ => true) [] 1).db.find?
            (fun r => r.id == pr.2) = some row →
          row.has_subtitle = (Netflix.find_subtitle ⟨[⟨[], "clip", ".mp4"⟩]⟩ f).isSome) →
      (Netflix.scan_media ⟨[⟨[], "clip", ".mp4"⟩]⟩ (fun _ => 0) (fun _ => true)
          (Netflix.scan_media ⟨[⟨[], "clip", ".mp4"⟩]⟩ (fun _ => 0) (fun _ => true) [] 1).db
          (Netflix.scan_media ⟨[⟨[], "clip", ".mp4"⟩]⟩ (fun _ => 0) (fun _ => true) [] 1).nextId).updatedCount
        = 0)) :=
  ⟨List.nodup_nil, fun r hr => absurd hr (List.not_mem_nil r),
   C4_second_scan_changes_nothing ⟨[⟨[], "clip", ".mp4"⟩]⟩ (fun _ => 0) (fun _ => true) [] 1
     List.nodup_nil (fun r hr => absurd hr (List.not_mem_nil r))⟩
